import Mathlib

/-!
Shallow embedding of the counter store in `src/src/App.tsx`.

The store is created with zustand's `create`, wrapped in `devtools` and
`persist`. Its state has one data field `count : number` (initial value 0)
and three function-valued fields `increment`, `decrement`, `reset`, each a
closure created once by the initializer. `set` merges a partial update into
the current state; every update written by the source touches only `count`.
Function values in JavaScript are compared by reference, so we model each
function field by an opaque reference tag (a natural number) fixed at store
creation.
-/

/-- The store state from `interface Store` in `src/src/App.tsx` (lines
10-15): `count` plus the three function-valued fields, each modelled by its
reference tag. -/
structure Store where
  count : Int
  incrementRef : Nat
  decrementRef : Nat
  resetRef : Nat
deriving DecidableEq, Repr

/-- zustand's `set` applied to a partial update that mentions only `count`:
the update is shallow-merged into the current state, leaving every other
field untouched. -/
def setCount (s : Store) (c : Int) : Store :=
  { s with count := c }

/-- `increment: () => set(state => ({count: state.count + 1}))`
(`src/src/App.tsx` line 62). -/
def increment (s : Store) : Store :=
  setCount s (s.count + 1)

/-- `decrement: () => set(state => ({count: state.count - 1}))`
(`src/src/App.tsx` line 63). -/
def decrement (s : Store) : Store :=
  setCount s (s.count - 1)

/-- `reset: () => set({count: 0})` (`src/src/App.tsx` line 64). -/
def reset (s : Store) : Store :=
  setCount s 0

/-- The state built by the initializer passed to `create` (lines 60-65):
`count = 0` and the three closures, created once, with distinct reference
tags. -/
def initialStore : Store :=
  { count := 0, incrementRef := 0, decrementRef := 1, resetRef := 2 }

/-- One of the three mutation operations exposed by the store. -/
inductive Op where
  | increment
  | decrement
  | reset
deriving DecidableEq, Repr

/-- Dispatch an operation to the store function it names. -/
def applyOp (s : Store) : Op → Store
  | .increment => increment s
  | .decrement => decrement s
  | .reset => reset s

/-- Run a finite sequence of operations against the store, in order. -/
def runOps (s : Store) : List Op → Store
  | [] => s
  | o :: rest => runOps (applyOp s o) rest

/-- The specification's fold over an operation sequence: starting from a
running value, add 1 per increment, subtract 1 per decrement, and force the
running value to exactly 0 at each reset. -/
def specFold (v : Int) : List Op → Int
  | [] => v
  | .increment :: rest => specFold (v + 1) rest
  | .decrement :: rest => specFold (v - 1) rest
  | .reset :: rest => specFold 0 rest

/-!
Selector-based subscription with shallow comparison.

The App component (`src/src/App.tsx` lines 76-78) subscribes with
`useShallow((state) => ({count, increment, decrement}))`: the derived value
is the record of those three fields, and the subscriber re-runs only when
that record differs from the previously seen one under a one-level
field-by-field comparison. The subscription machinery itself lives in the
zustand library, outside this repository's sources; its contract is taken
from the specification.
-/

/-- The derived value produced by the App selector: the `count` field and
the reference tags of the two selected function fields. -/
structure AppSelection where
  count : Int
  incrementRef : Nat
  decrementRef : Nat
deriving DecidableEq, Repr

/-- The selector passed to `useShallow` in `src/src/App.tsx` line 77:
`(state) => ({count: state.count, increment: state.increment,
decrement: state.decrement})`. -/
def appSelector (s : Store) : AppSelection :=
  { count := s.count, incrementRef := s.incrementRef, decrementRef := s.decrementRef }

/-- One-level (shallow) field-by-field comparison of two derived values:
`count` by value, the two function fields by reference tag. -/
def shallowEqApp (a b : AppSelection) : Bool :=
  a.count == b.count && a.incrementRef == b.incrementRef && a.decrementRef == b.decrementRef

/-- A subscriber holding the derived value it last saw. -/
structure Subscriber where
  lastSeen : AppSelection
deriving DecidableEq, Repr

/-- Modelled from the spec: the notification step of the subscription
machinery (in the zustand library, not under `src/`). On a store mutation
the subscriber recomputes its derived value from the new state; the
callback fires (the returned Bool is true) exactly when the new derived
value differs from the previously seen one under shallow comparison, and
the cached value is updated only then. -/
def notifyStep (sub : Subscriber) (s : Store) : Subscriber × Bool :=
  let v := appSelector s
  if shallowEqApp sub.lastSeen v then (sub, false) else ({ lastSeen := v }, true)

/-- Modelled from the spec: the store extended with a hypothetical field
unrelated to the App selector, as in "mutating an unrelated hypothetical
field (if one existed)". No such field exists in `src/src/App.tsx`; this
structure realises the hypothesis so the selector-stability claim can be
stated. -/
structure StoreH where
  count : Int
  incrementRef : Nat
  decrementRef : Nat
  resetRef : Nat
  unrelated : Int
deriving DecidableEq, Repr

/-- The App selector on the extended store: it projects the same three
fields and ignores the unrelated one. -/
def appSelectorH (s : StoreH) : AppSelection :=
  { count := s.count, incrementRef := s.incrementRef, decrementRef := s.decrementRef }

/-- A `set` call on the extended store that mutates only the hypothetical
unrelated field. -/
def setUnrelated (s : StoreH) (v : Int) : StoreH :=
  { s with unrelated := v }

/-- A `set` call on the extended store that mutates only `count`. -/
def setCountH (s : StoreH) (c : Int) : StoreH :=
  { s with count := c }

/-- Modelled from the spec: the notification step on the extended store,
identical to `notifyStep` but reading the derived value through
`appSelectorH`. -/
def notifyStepH (sub : Subscriber) (s : StoreH) : Subscriber × Bool :=
  let v := appSelectorH s
  if shallowEqApp sub.lastSeen v then (sub, false) else ({ lastSeen := v }, true)

/-!
Persistence.

The `persist` middleware (`src/src/App.tsx` lines 59-69) is configured with
the fixed key `'zustand-react-typescript-base'`. The middleware itself is
zustand library code, outside this repository's sources; per the
specification it serializes `{ count: integer }` under that key on every
mutation and, at store creation, deserializes prior state from that key,
falling back to the default state (`count = 0`) when the key is absent or
the payload malformed, without crashing.
-/

/-- A serialized value in the durable key-value medium. -/
inductive Json where
  | num (n : Int)
  | str (s : String)
  | obj (fields : List (String × Json))

/-- Look up a field by key in a serialized object or in the key-value
medium; the first binding wins. -/
def lookupField (k : String) : List (String × Json) → Option Json
  | [] => none
  | (k', v) :: rest => if k' = k then some v else lookupField k rest

/-- The fixed storage key, from `name: 'zustand-react-typescript-base'`
(`src/src/App.tsx` line 67). -/
def storageKey : String := "zustand-react-typescript-base"

/-- Modelled from the spec: serialization of the store state, "a serialized
representation of `{ count: integer }`". Only the data field is persisted;
the function fields are recreated by the initializer. -/
def serializeStore (s : Store) : Json :=
  .obj [("count", .num s.count)]

/-- Modelled from the spec: deserialization of a persisted payload. It
recovers an integer `count` from a well-formed payload and reports failure
on anything else (non-object payload, missing field, non-numeric count). -/
def deserializeCount (j : Json) : Option Int :=
  match j with
  | .obj fields =>
    match lookupField "count" fields with
    | some (.num n) => some n
    | _ => none
  | _ => none

/-- Modelled from the spec: the durable write performed on every mutation,
storing the serialized state under the fixed key (newer bindings shadow
older ones). -/
def persistOnMutation (kv : List (String × Json)) (s : Store) : List (String × Json) :=
  (storageKey, serializeStore s) :: kv

/-- Modelled from the spec: store construction from the durable medium. The
initializer state is merged with any persisted `count`; if the key is
absent or the payload malformed the default state (`count = 0`) is used.
The function is total: no input makes it fail. -/
def rehydrate (kv : List (String × Json)) : Store :=
  match lookupField storageKey kv with
  | some j =>
    match deserializeCount j with
    | some n => { initialStore with count := n }
    | none => initialStore
  | none => initialStore

/-- The counter text rendered by the App component, from
`<p>Count: {count}</p>` (`src/src/App.tsx` line 85). -/
def renderCount (s : Store) : String :=
  "Count: " ++ toString s.count

/-! Theorems. -/

/-- Helper: running a sequence of operations from any state computes the
specification fold started at that state's count. -/
theorem runOps_count_general (ops : List Op) (s : Store) :
    (runOps s ops).count = specFold s.count ops := by
  induction ops generalizing s with
  | nil => rfl
  | cons o rest ih =>
    cases o <;> simp [runOps, applyOp, increment, decrement, reset, setCount, specFold, ih]

/-- Helper: shallow comparison is reflexive. -/
theorem shallowEqApp_refl (a : AppSelection) : shallowEqApp a a = true := by
  simp [shallowEqApp]

/-- C1: for every finite sequence of increment/decrement/reset operations
applied in order from the initial state (count = 0), the resulting count
equals the fold of the sequence: +1 per increment, -1 per decrement, and
the running value forced to exactly 0 at each reset. -/
theorem store_count_eq_specFold (ops : List Op) :
    (runOps initialStore ops).count = specFold 0 ops :=
  runOps_count_general ops initialStore

/-- C2: from every state, one increment call raises count by exactly 1, one
decrement call lowers it by exactly 1, and one reset call sets it to
exactly 0; each operation is a total function taking no input. -/
theorem mutator_unit_effects (s : Store) :
    (increment s).count = s.count + 1 ∧
    (decrement s).count = s.count - 1 ∧
    (reset s).count = 0 :=
  ⟨rfl, rfl, rfl⟩

/-- C3: after any mutation, the subscriber's callback fires exactly when
the newly selected derived value differs from the previously seen one
under one-level shallow comparison; in particular, when the shallow
projection is unchanged no callback fires. -/
theorem subscriber_fires_iff_projection_changed (sub : Subscriber) (s : Store) (op : Op) :
    (notifyStep sub (applyOp s op)).snd = true ↔
      shallowEqApp sub.lastSeen (appSelector (applyOp s op)) = false := by
  unfold notifyStep
  by_cases h : shallowEqApp sub.lastSeen (appSelector (applyOp s op)) <;> simp [h]

/-- C4: for a subscriber in sync with the store whose selector projects
count/increment/decrement, a set call mutating only an unrelated field
never fires its callback, while a set call that changes count fires exactly
one callback. -/
theorem selector_stability (s : StoreH) (v c : Int) (h : c ≠ s.count) :
    (notifyStepH { lastSeen := appSelectorH s } (setUnrelated s v)).snd = false ∧
    (notifyStepH { lastSeen := appSelectorH s } (setCountH s c)).snd = true := by
  constructor
  · simp [notifyStepH, setUnrelated, appSelectorH, shallowEqApp]
  · simp [notifyStepH, setCountH, appSelectorH, shallowEqApp, Ne.symm h]

/-- Witness for C4 at a concrete extended store, unrelated value 7 and new
count 5. -/
theorem selector_stability_witness :
    (5 : Int) ≠ (⟨0, 0, 1, 2, 0⟩ : StoreH).count ∧
    ((notifyStepH { lastSeen := appSelectorH ⟨0, 0, 1, 2, 0⟩ }
        (setUnrelated ⟨0, 0, 1, 2, 0⟩ 7)).snd = false ∧
     (notifyStepH { lastSeen := appSelectorH ⟨0, 0, 1, 2, 0⟩ }
        (setCountH ⟨0, 0, 1, 2, 0⟩ 5)).snd = true) :=
  ⟨by decide, selector_stability ⟨0, 0, 1, 2, 0⟩ 7 5 (by decide)⟩

/-- C5: reset is idempotent: from every state, the first reset yields
count = 0, a second reset yields count = 0 again, and the second call
produces no state change at all. -/
theorem reset_idempotent (s : Store) :
    (reset s).count = 0 ∧ (reset (reset s)).count = 0 ∧ reset (reset s) = reset s :=
  ⟨rfl, rfl, rfl⟩

/-- C6: persistence round-trip: writing the serialized state under the
fixed key and then reconstructing a store from the durable medium recovers
a count identical to the one before serialization, for every store state
and prior medium contents. -/
theorem persist_roundtrip (kv : List (String × Json)) (s : Store) :
    (rehydrate (persistOnMutation kv s)).count = s.count := by
  simp [rehydrate, persistOnMutation, lookupField, serializeStore, deserializeCount]

/-- C7: when the persisted payload is missing (key absent) or malformed
(deserialization fails, e.g. a non-numeric count), store construction
still succeeds and yields the default state with count = 0. -/
theorem malformed_or_missing_defaults (kv : List (String × Json))
    (h : lookupField storageKey kv = none ∨
         ∃ j, lookupField storageKey kv = some j ∧ deserializeCount j = none) :
    rehydrate kv = initialStore ∧ (rehydrate kv).count = 0 := by
  have hr : rehydrate kv = initialStore := by
    unfold rehydrate
    rcases h with h | ⟨j, hj, hd⟩
    · simp [h]
    · simp [hj, hd]
  exact ⟨hr, by rw [hr]; rfl⟩

/-- Witness for C7 at a concrete medium holding a payload whose count is
the non-numeric string "x" under the fixed key. -/
theorem malformed_defaults_witness :
    (lookupField storageKey [(storageKey, Json.obj [("count", Json.str "x")])] = none ∨
     ∃ j, lookupField storageKey [(storageKey, Json.obj [("count", Json.str "x")])] = some j ∧
       deserializeCount j = none) ∧
    (rehydrate [(storageKey, Json.obj [("count", Json.str "x")])] = initialStore ∧
     (rehydrate [(storageKey, Json.obj [("count", Json.str "x")])]).count = 0) :=
  ⟨Or.inr ⟨Json.obj [("count", Json.str "x")], rfl, rfl⟩,
   malformed_or_missing_defaults _ (Or.inr ⟨Json.obj [("count", Json.str "x")], rfl, rfl⟩)⟩

/-- C8: end-to-end scenario: the initial render shows "Count: 0"; after
three increments it shows "Count: 3"; after one further decrement
"Count: 2"; after a reset "Count: 0". -/
theorem end_to_end_render :
    renderCount initialStore = "Count: 0" ∧
    renderCount (runOps initialStore [.increment, .increment, .increment]) = "Count: 3" ∧
    renderCount (runOps initialStore
      [.increment, .increment, .increment, .decrement]) = "Count: 2" ∧
    renderCount (runOps initialStore
      [.increment, .increment, .increment, .decrement, .reset]) = "Count: 0" :=
  ⟨rfl, rfl, rfl, rfl⟩

/-- C9: frame property: every operation changes only the count field; the
three function-valued fields keep their references under every operation. -/
theorem mutators_frame (s : Store) (op : Op) :
    (applyOp s op).incrementRef = s.incrementRef ∧
    (applyOp s op).decrementRef = s.decrementRef ∧
    (applyOp s op).resetRef = s.resetRef := by
  cases op <;> exact ⟨rfl, rfl, rfl⟩

/-- C10: increment and decrement are mutual inverses on count: from every
state, increment followed by decrement, and decrement followed by
increment, both return count to its original value. -/
theorem inc_dec_mutual_inverses (s : Store) :
    (decrement (increment s)).count = s.count ∧
    (increment (decrement s)).count = s.count := by
  refine ⟨?_, ?_⟩ <;> simp [increment, decrement, setCount]
